import Mathlib

/-!
Verification of the reversion-hunter screening pipeline.

This file gives a shallow embedding, over the rationals, of the core
calculation and data-model code of the repository:

* `src/calculations/expected_value.py` — EV and Kelly sizing;
* `src/calculations/greeks.py`        — Black-Scholes Greeks;
* `src/calculations/spreads.py`       — pair-spread reversion probability;
* `src/models/option.py`              — `PutSpread` / `CallSpread` construction;
* `src/models/stock.py`               — Layer-1 fundamental screening;
* `src/models/trade.py`               — `Portfolio.add_trade`;
* `src/scanner/layer3_greeks.py`      — spread construction from a chain.

Python floats are modelled as rationals; where the behaviour of IEEE special
values (inf / nan) is itself at issue (the Greeks engine), an extended value
domain `FV` is used instead.  Calls into external numeric libraries
(`np.log`, `np.sqrt`, `np.exp`, `scipy.stats.norm.cdf` / `.pdf`) are modelled
as parameters, since their code is not part of the repository.  Fallible
operations (a Python statement that can raise an uncaught exception) are
modelled with `Option`.
-/

namespace ReversionHunter

/-! ## Extended value domain for Python/numpy floats

`FV` models an IEEE-style value: a finite rational, a signed infinity, or
nan.  Rounding is idealised away (finite arithmetic is exact rational
arithmetic), but the special-value propagation rules of float arithmetic are
kept, because the Greeks engine's behaviour on degenerate inputs depends on
them (numpy returns inf/nan from these operations instead of raising). -/

inductive FV where
  | nan : FV
  | inf : FV
  | ninf : FV
  | fin (q : ℚ) : FV
deriving DecidableEq

namespace FV

/-- Negation of an extended float. -/
def neg : FV → FV
  | nan => nan
  | inf => ninf
  | ninf => inf
  | fin q => fin (-q)

/-- Addition of extended floats (`inf + -inf = nan`). -/
def add : FV → FV → FV
  | nan, _ => nan
  | _, nan => nan
  | inf, ninf => nan
  | ninf, inf => nan
  | inf, _ => inf
  | _, inf => inf
  | ninf, _ => ninf
  | _, ninf => ninf
  | fin a, fin b => fin (a + b)

/-- Subtraction, as addition of the negation (exact for IEEE semantics). -/
def sub (a b : FV) : FV := add a (neg b)

/-- Multiplication of extended floats (`inf * 0 = nan`). -/
def mul : FV → FV → FV
  | nan, _ => nan
  | _, nan => nan
  | inf, inf => inf
  | inf, ninf => ninf
  | ninf, inf => ninf
  | ninf, ninf => inf
  | inf, fin q => if 0 < q then inf else if q < 0 then ninf else nan
  | fin q, inf => if 0 < q then inf else if q < 0 then ninf else nan
  | ninf, fin q => if 0 < q then ninf else if q < 0 then inf else nan
  | fin q, ninf => if 0 < q then ninf else if q < 0 then inf else nan
  | fin a, fin b => fin (a * b)

/-- Division of extended floats.  A nonzero finite value divided by (an
unsigned, i.e. positive) zero gives the correspondingly signed infinity,
and `0 / 0 = nan`, matching numpy's non-raising float semantics. -/
def div : FV → FV → FV
  | nan, _ => nan
  | _, nan => nan
  | inf, inf => nan
  | inf, ninf => nan
  | ninf, inf => nan
  | ninf, ninf => nan
  | inf, fin q => if 0 ≤ q then inf else ninf
  | ninf, fin q => if 0 ≤ q then ninf else inf
  | fin _, inf => fin 0
  | fin _, ninf => fin 0
  | fin a, fin b =>
    if b = 0 then (if a = 0 then nan else if 0 < a then inf else ninf)
    else fin (a / b)

/-- Strict `<` comparison; any comparison with nan is `false`. -/
def lt : FV → FV → Bool
  | nan, _ => false
  | _, nan => false
  | ninf, ninf => false
  | inf, inf => false
  | ninf, _ => true
  | _, inf => true
  | inf, _ => false
  | _, ninf => false
  | fin a, fin b => decide (a < b)

/-- `≤` comparison; any comparison with nan is `false`. -/
def le : FV → FV → Bool
  | nan, _ => false
  | _, nan => false
  | ninf, _ => true
  | _, inf => true
  | inf, _ => false
  | _, ninf => false
  | fin a, fin b => decide (a ≤ b)

end FV

/-! ## Greeks engine (`src/calculations/greeks.py`, `GreeksCalculator`) -/

/-- The external numeric library functions used by the Greeks engine
(`np.log`, `np.sqrt`, `np.exp`, `scipy.stats.norm.cdf`, `scipy.stats.norm.pdf`).
Their code is not part of this repository, so they are parameters of the
embedding; theorems add hypotheses only for the library-documented values
actually needed (e.g. `norm.pdf(inf) = 0`). -/
structure BSFuns where
  log : FV → FV
  sqrt : FV → FV
  exp : FV → FV
  normCdf : FV → FV
  normPdf : FV → FV

/-- Result of `GreeksCalculator.calculate_all_greeks`: each Greek is either a
computed float value (`some`) or Python `None` (`none`), the latter being the
"Greeks unavailable" outcome produced by the `except` branch. -/
structure GreeksResult where
  delta : Option FV
  gamma : Option FV
  theta : Option FV
  vega : Option FV
  rho : Option FV
deriving DecidableEq

/-- The all-`None` dict returned by the `except` branch of
`calculate_all_greeks` ("Greeks unavailable"). -/
def greeksUnavailable : GreeksResult :=
  { delta := none, gamma := none, theta := none, vega := none, rho := none }

/-- The quantity `d1` of the closed-form model, exactly as computed in
`calculate_all_greeks`:
`(np.log(spot/strike) + (r + 0.5*iv**2)*T) / (iv * np.sqrt(T))`.
This is the expression evaluated when the builtin-float division
`spot_price / strike_price` does not raise, i.e. when the strike is nonzero
(`calculate_all_greeks` models the zero-strike `ZeroDivisionError` before
this formula is reached); division by inf/nan does not raise in Python and
follows the `FV.div` special-value rules. -/
def bs_d1 (F : BSFuns) (spot strike T r iv : FV) : FV :=
  FV.div
    (FV.add (F.log (FV.div spot strike))
      (FV.mul (FV.add r (FV.mul (FV.fin (1/2)) (FV.mul iv iv))) T))
    (FV.mul iv (F.sqrt T))

/-- `d2 = d1 - iv * np.sqrt(T)`. -/
def bs_d2 (F : BSFuns) (spot strike T r iv : FV) : FV :=
  FV.sub (bs_d1 F spot strike T r iv) (FV.mul iv (F.sqrt T))

/-- Python's `str.lower()` (ASCII suffices for the option-type strings). -/
def pyLower (s : String) : String := String.mk (s.data.map Char.toLower)

/-- `GreeksCalculator.calculate_all_greeks`.  The `time_to_expiration <= 0`
branch returns the intrinsic-value limit without touching the library
functions.  Otherwise the closed-form expressions are evaluated: the one
operation on this path that can raise a Python exception is the
builtin-float division `spot_price / strike_price` inside `np.log(...)`,
which raises `ZeroDivisionError` when the strike is zero — the `except`
branch then returns the all-`None` dict `greeksUnavailable`.  Every other
operation is numpy/scipy arithmetic on `np.float64`, which produces inf/nan
(with only a RuntimeWarning) instead of raising, so for a nonzero strike
the result is the computed dict. -/
def calculate_all_greeks (F : BSFuns) (spot strike T r iv : FV)
    (optionType : String) : GreeksResult :=
  if FV.le T (FV.fin 0) then
    -- Option has expired
    let delta : FV :=
      if pyLower optionType = "call" then
        (if FV.lt strike spot then FV.fin 1 else FV.fin 0)
      else
        (if FV.lt spot strike then FV.fin (-1) else FV.fin 0)
    { delta := some delta, gamma := some (FV.fin 0), theta := some (FV.fin 0),
      vega := some (FV.fin 0), rho := some (FV.fin 0) }
  else if strike = FV.fin 0 then
    -- `spot_price / strike_price` raises ZeroDivisionError; caught by `except`
    greeksUnavailable
  else
    let sqrtT := F.sqrt T
    let d1 := bs_d1 F spot strike T r iv
    let d2 := bs_d2 F spot strike T r iv
    let expRT := F.exp (FV.neg (FV.mul r T))
    let delta : FV :=
      if pyLower optionType = "call" then F.normCdf d1
      else FV.sub (F.normCdf d1) (FV.fin 1)
    let thetaRaw : FV :=
      if pyLower optionType = "call" then
        FV.sub
          (FV.div (FV.mul (FV.mul (FV.neg spot) (F.normPdf d1)) iv)
            (FV.mul (FV.fin 2) sqrtT))
          (FV.mul (FV.mul (FV.mul r strike) expRT) (F.normCdf d2))
      else
        FV.add
          (FV.div (FV.mul (FV.mul (FV.neg spot) (F.normPdf d1)) iv)
            (FV.mul (FV.fin 2) sqrtT))
          (FV.mul (FV.mul (FV.mul r strike) expRT) (F.normCdf (FV.neg d2)))
    let rho : FV :=
      if pyLower optionType = "call" then
        FV.div (FV.mul (FV.mul (FV.mul strike T) expRT) (F.normCdf d2))
          (FV.fin 100)
      else
        FV.div (FV.mul (FV.mul (FV.mul (FV.neg strike) T) expRT)
          (F.normCdf (FV.neg d2))) (FV.fin 100)
    let gamma : FV :=
      FV.div (F.normPdf d1) (FV.mul (FV.mul spot iv) sqrtT)
    let vega : FV :=
      FV.div (FV.mul (FV.mul spot (F.normPdf d1)) sqrtT) (FV.fin 100)
    { delta := some delta, gamma := some gamma,
      theta := some (FV.div thetaRaw (FV.fin 365)),
      vega := some vega, rho := some rho }

/-! ## Expected value engine (`src/calculations/expected_value.py`,
`ExpectedValueCalculator`).  These functions perform only guarded rational
arithmetic on this code path, so they are modelled directly over `ℚ`;
`profit_factor` uses `Option ℚ` with `none` standing for Python's
`float('inf')`. -/

/-- The dict returned by `calculate_credit_spread_ev`. -/
structure CreditSpreadEV where
  expected_value : ℚ
  ev_percent : ℚ
  win_amount : ℚ
  loss_amount : ℚ
  win_probability : ℚ
  loss_probability : ℚ
  profit_factor : Option ℚ
deriving DecidableEq

/-- `ExpectedValueCalculator.calculate_credit_spread_ev`. -/
def calculate_credit_spread_ev (premium_collected max_loss
    probability_of_profit : ℚ) : CreditSpreadEV :=
  let win_prob := probability_of_profit / 100
  let loss_prob := 1 - win_prob
  let win_amount := premium_collected
  let loss_amount := max_loss
  let ev := win_prob * win_amount - loss_prob * loss_amount
  let ev_percent := if 0 < max_loss then (ev / max_loss) * 100 else 0
  let profit_factor : Option ℚ :=
    if 0 < max_loss then
      (if 0 < loss_prob then some ((win_prob * win_amount) / (loss_prob * loss_amount))
       else none)  -- float('inf')
    else some 0
  { expected_value := ev, ev_percent := ev_percent,
    win_amount := win_amount, loss_amount := loss_amount,
    win_probability := win_prob, loss_probability := loss_prob,
    profit_factor := profit_factor }

/-- `ExpectedValueCalculator.kelly_criterion`.  When `loss_amount ≠ 0` but
`win_amount = 0`, the win/loss ratio `b` is `0.0` and the Python expression
`(b * p - q) / b` raises an uncaught `ZeroDivisionError`; that outcome is
modelled as `none`. -/
def kelly_criterion (win_probability win_amount loss_amount : ℚ) : Option ℚ :=
  if loss_amount = 0 then some 0
  else
    let b := win_amount / loss_amount
    let p := win_probability
    let q := 1 - p
    if b = 0 then none  -- ZeroDivisionError
    else
      let kelly := (b * p - q) / b
      some (max 0 (min (kelly * (1/4)) (1/20)))

/-- `ExpectedValueCalculator.meets_ev_threshold` (default threshold `0.20`):
returns the pass flag together with the EV metrics. -/
def meets_ev_threshold (premium_collected max_loss probability_of_profit : ℚ)
    (threshold : ℚ := 1/5) : Bool × CreditSpreadEV :=
  let ev_metrics :=
    calculate_credit_spread_ev premium_collected max_loss probability_of_profit
  (decide (ev_metrics.ev_percent ≥ threshold * 100), ev_metrics)

/-! ## Option data model (`src/models/option.py`) -/

/-- Python truthiness of an `Optional[float]`: `None` and `0.0` are falsy. -/
def truthy : Option ℚ → Bool
  | none => false
  | some q => decide (q ≠ 0)

/-- `OptionContract` (the fields consumed by spread construction and
qualification; prices and Greeks are `Optional[float]`). -/
structure OptionContract where
  symbol : String
  strike : ℚ
  bid : Option ℚ
  ask : Option ℚ
  delta : Option ℚ
  gamma : Option ℚ
  theta : Option ℚ
  vega : Option ℚ
  rho : Option ℚ
  implied_volatility : Option ℚ
  iv_percentile : Option ℚ
  days_to_expiration : Option ℤ
deriving DecidableEq

/-- `PutSpread` (bull put credit spread): the field set after `__init__`. -/
structure PutSpread where
  symbol : String
  short_put : OptionContract
  long_put : OptionContract
  strike_width : ℚ
  net_premium_collected : ℚ
  max_profit : ℚ
  max_loss : ℚ
  breakeven : ℚ
  delta : Option ℚ
  theta : Option ℚ
  vega : Option ℚ
  gamma : Option ℚ
  probability_of_profit : Option ℚ
  dte : ℤ
deriving DecidableEq

/-- `PutSpread.__init__`: after the field data is validated and stored, the
body recomputes `strike_width`, `max_profit`, `max_loss` and `breakeven`
from the legs and the net premium, overwriting whatever was passed in
(`strike_width0` etc.), and conditionally (on Python truthiness of both leg
values) overwrites the aggregate Greeks and the probability of profit.
Arguments that the builder does not pass default to `0` / `none`, their
pydantic defaults. -/
def mkPutSpread (symbol : String) (short_put long_put : OptionContract)
    (net_premium_collected : ℚ) (dte : ℤ)
    (strike_width0 max_profit0 max_loss0 breakeven0 : ℚ := 0)
    (delta0 theta0 vega0 gamma0 pop0 : Option ℚ := none) : PutSpread :=
  let _ := (strike_width0, max_profit0, max_loss0, breakeven0)
  let sw := short_put.strike - long_put.strike
  { symbol := symbol, short_put := short_put, long_put := long_put,
    strike_width := sw,
    net_premium_collected := net_premium_collected,
    max_profit := net_premium_collected,
    max_loss := sw - net_premium_collected,
    breakeven := short_put.strike - net_premium_collected,
    delta :=
      if truthy short_put.delta && truthy long_put.delta then
        some (-(short_put.delta.getD 0) + long_put.delta.getD 0)
      else delta0,
    theta :=
      if truthy short_put.theta && truthy long_put.theta then
        some (-(short_put.theta.getD 0) + long_put.theta.getD 0)
      else theta0,
    vega :=
      if truthy short_put.vega && truthy long_put.vega then
        some (-(short_put.vega.getD 0) + long_put.vega.getD 0)
      else vega0,
    gamma :=
      if truthy short_put.gamma && truthy long_put.gamma then
        some (-(short_put.gamma.getD 0) + long_put.gamma.getD 0)
      else gamma0,
    probability_of_profit :=
      if truthy short_put.delta then
        some ((1 - |short_put.delta.getD 0|) * 100)
      else pop0,
    dte := dte }

/-- `CallSpread` (bull call debit spread): the field set after `__init__`. -/
structure CallSpread where
  symbol : String
  long_call : OptionContract
  short_call : OptionContract
  strike_width : ℚ
  net_debit_paid : ℚ
  max_profit : ℚ
  max_loss : ℚ
  breakeven : ℚ
  delta : Option ℚ
  theta : Option ℚ
  vega : Option ℚ
  gamma : Option ℚ
  probability_of_profit : Option ℚ
  dte : ℤ
deriving DecidableEq

/-- `CallSpread.__init__`, analogous to `mkPutSpread`: recomputes the spread
metrics from the legs and the net debit, and conditionally overwrites the
aggregate Greeks (`long - short`) and the probability of profit. -/
def mkCallSpread (symbol : String) (long_call short_call : OptionContract)
    (net_debit_paid : ℚ) (dte : ℤ)
    (strike_width0 max_profit0 max_loss0 breakeven0 : ℚ := 0)
    (delta0 theta0 vega0 gamma0 pop0 : Option ℚ := none) : CallSpread :=
  let _ := (strike_width0, max_profit0, max_loss0, breakeven0)
  let sw := short_call.strike - long_call.strike
  { symbol := symbol, long_call := long_call, short_call := short_call,
    strike_width := sw,
    net_debit_paid := net_debit_paid,
    max_profit := sw - net_debit_paid,
    max_loss := net_debit_paid,
    breakeven := long_call.strike + net_debit_paid,
    delta :=
      if truthy long_call.delta && truthy short_call.delta then
        some (long_call.delta.getD 0 - short_call.delta.getD 0)
      else delta0,
    theta :=
      if truthy long_call.theta && truthy short_call.theta then
        some (long_call.theta.getD 0 - short_call.theta.getD 0)
      else theta0,
    vega :=
      if truthy long_call.vega && truthy short_call.vega then
        some (long_call.vega.getD 0 - short_call.vega.getD 0)
      else vega0,
    gamma :=
      if truthy long_call.gamma && truthy short_call.gamma then
        some (long_call.gamma.getD 0 - short_call.gamma.getD 0)
      else gamma0,
    probability_of_profit :=
      if truthy long_call.delta then
        some (long_call.delta.getD 0 * 100)
      else pop0,
    dte := dte }

/-! ## Spread construction (`src/scanner/layer3_greeks.py`, `GreeksScanner`).
The candidate filters and the mid-price arithmetic are modelled exactly; the
pricing fields are read with `getD 0`, which is safe because the filters keep
only contracts whose `bid` and `ask` are present.  `days_to_expiration or 0`
maps `None` (and `0`) to `0`, i.e. `getD 0`. -/

/-- `GreeksScanner._build_put_spreads`: short-put candidates are the OTM puts
with delta in `[-0.20, -0.15]` and both quotes present; for each, long-put
candidates sit `$5`–`$10` below; a pair is kept only when the net premium
(short mid minus long mid) is positive. -/
def _build_put_spreads (put_contracts : List OptionContract)
    (current_price : ℚ) (symbol : String) : List PutSpread :=
  let short_put_candidates := put_contracts.filter (fun c =>
    (match c.delta with
     | some d => decide (-(1/5 : ℚ) ≤ d ∧ d ≤ -(3/20 : ℚ))
     | none => false)
    && decide (c.strike < current_price)  -- OTM
    && c.bid.isSome && c.ask.isSome)
  short_put_candidates.flatMap (fun short_put =>
    let long_put_candidates := put_contracts.filter (fun c =>
      decide (c.strike < short_put.strike)
      && decide ((5 : ℚ) ≤ short_put.strike - c.strike
                 ∧ short_put.strike - c.strike ≤ 10)
      && c.bid.isSome && c.ask.isSome)
    long_put_candidates.filterMap (fun long_put =>
      let short_premium := (short_put.bid.getD 0 + short_put.ask.getD 0) / 2
      let long_premium := (long_put.bid.getD 0 + long_put.ask.getD 0) / 2
      let net_premium := short_premium - long_premium
      if net_premium ≤ 0 then none
      else some (mkPutSpread symbol short_put long_put net_premium
        (short_put.days_to_expiration.getD 0))))

/-- `GreeksScanner._build_call_spreads`: long-call candidates have delta in
`[0.60, 0.70]` and strike at most `1.05 ×` spot; short-call candidates sit
`$5`–`$10` above; a pair is kept only when the net debit (long mid minus
short mid) is positive. -/
def _build_call_spreads (call_contracts : List OptionContract)
    (current_price : ℚ) (symbol : String) : List CallSpread :=
  let long_call_candidates := call_contracts.filter (fun c =>
    (match c.delta with
     | some d => decide ((3/5 : ℚ) ≤ d ∧ d ≤ 7/10)
     | none => false)
    && decide (c.strike ≤ current_price * (21/20))  -- ATM to slightly ITM
    && c.bid.isSome && c.ask.isSome)
  long_call_candidates.flatMap (fun long_call =>
    let short_call_candidates := call_contracts.filter (fun c =>
      decide (long_call.strike < c.strike)
      && decide ((5 : ℚ) ≤ c.strike - long_call.strike
                 ∧ c.strike - long_call.strike ≤ 10)
      && c.bid.isSome && c.ask.isSome)
    short_call_candidates.filterMap (fun short_call =>
      let long_premium := (long_call.bid.getD 0 + long_call.ask.getD 0) / 2
      let short_premium := (short_call.bid.getD 0 + short_call.ask.getD 0) / 2
      let net_debit := long_premium - short_premium
      if net_debit ≤ 0 then none
      else some (mkCallSpread symbol long_call short_call net_debit
        (long_call.days_to_expiration.getD 0))))

/-! ## Stock fundamentals (`src/models/stock.py`, `StockFundamentals`) -/

/-- `StockFundamentals`: the fields used by Layer-1 screening. -/
structure StockFundamentals where
  symbol : String
  current_price : ℚ
  market_cap : ℚ
  pe_ratio : Option ℚ
  roe : Option ℚ
  debt_to_equity : Option ℚ
  eps_current : Option ℚ
  eps_q1_ago : Option ℚ
  eps_q2_ago : Option ℚ
  sector : Option String
  correlation_to_mag7 : Option ℚ
deriving DecidableEq

/-- `StockFundamentals.eps_growth_positive_2q`: Python evaluates
`if self.eps_current and self.eps_q1_ago and self.eps_q2_ago`, so a reading
that is `None` — or exactly `0.0`, by Python truthiness — short-circuits to
`False`; otherwise the chained comparison
`eps_current > eps_q1_ago > eps_q2_ago` decides the result. -/
def eps_growth_positive_2q (s : StockFundamentals) : Bool :=
  truthy s.eps_current && truthy s.eps_q1_ago && truthy s.eps_q2_ago &&
    decide (s.eps_current.getD 0 > s.eps_q1_ago.getD 0
            ∧ s.eps_q1_ago.getD 0 > s.eps_q2_ago.getD 0)

/-- The violated-rule messages appended by `passes_layer1_criteria`, as a
structured type (each constructor carries the interpolated value of the
corresponding f-string). -/
inductive Layer1Failure where
  | peOutOfRange (pe : Option ℚ)
  | marketCapTooSmall (mc : ℚ)
  | mag7CorrelationTooHigh (c : Option ℚ)
  | sectorNotAllowed (sec : Option String)
  | epsGrowthNotPositive
  | debtToEquityTooHigh (d : Option ℚ)
  | roeTooLow (r : Option ℚ)
deriving DecidableEq

/-- The sector allow-list of `passes_layer1_criteria`. -/
def allowed_sectors : List String :=
  ["Financials", "Healthcare", "Consumer Staples", "Utilities", "Industrials"]

/-- `StockFundamentals.passes_layer1_criteria`: evaluates the fixed rule set
in source order, collecting the violations; passes iff no rule is violated. -/
def passes_layer1_criteria (s : StockFundamentals) :
    Bool × List Layer1Failure :=
  let failures : List Layer1Failure :=
    (if (match s.pe_ratio with
         | none => true
         | some pe => !decide ((8 : ℚ) ≤ pe ∧ pe ≤ 15) : Bool) then
       [Layer1Failure.peOutOfRange s.pe_ratio] else [])
    ++ (if s.market_cap < 10000000000 then
         [Layer1Failure.marketCapTooSmall s.market_cap] else [])
    ++ (if (match s.correlation_to_mag7 with
            | none => true
            | some c => decide (-(3/10 : ℚ) ≤ c) : Bool) then
         [Layer1Failure.mag7CorrelationTooHigh s.correlation_to_mag7] else [])
    ++ (if (match s.sector with
            | none => true
            | some sec => decide (sec ∉ allowed_sectors) : Bool) then
         [Layer1Failure.sectorNotAllowed s.sector] else [])
    ++ (if eps_growth_positive_2q s = false then
         [Layer1Failure.epsGrowthNotPositive] else [])
    ++ (if (match s.debt_to_equity with
            | none => true
            | some d => decide ((3/2 : ℚ) ≤ d) : Bool) then
         [Layer1Failure.debtToEquityTooHigh s.debt_to_equity] else [])
    ++ (if (match s.roe with
            | none => true
            | some r => decide (r ≤ 12) : Bool) then
         [Layer1Failure.roeTooLow s.roe] else [])
  (failures.isEmpty, failures)

/-! ## Reversion probability (`src/calculations/spreads.py`,
`SpreadCalculator.calculate_reversion_probability`).  The spread history is
modelled as the list of values of the `spread` column; positional indexing
replaces the DataFrame index.  The pandas sample standard deviation calls a
square root, modelled by the external parameter `sqrtQ`. -/

/-- `SpreadCalculator.calculate_reversion_probability`. -/
def calculate_reversion_probability (sqrtQ : ℚ → ℚ)
    (spread_history : List ℚ) (current_spread : ℚ)
    (lookback_days : ℕ := 252) : ℚ :=
  if spread_history.isEmpty ∨ spread_history.length < lookback_days then
    50  -- Default to 50% if insufficient data
  else
    let spread := spread_history.drop (spread_history.length - lookback_days)
    let n := spread.length
    let mean := spread.sum / n
    let std := sqrtQ ((spread.map (fun x => (x - mean) ^ 2)).sum / ((n : ℚ) - 1))
    let z_score := if 0 < std then (current_spread - mean) / std else 0
    let similar_extremes :=
      spread.enum.filter (fun p => decide (|p.2 - current_spread| < std * (1/2)))
    let prob : ℚ :=
      if similar_extremes.length < 5 then
        min (50 + |z_score| * 10) 95
      else
        let reversions := (similar_extremes.filter (fun p =>
          match spread.get? (p.1 + 20) with
          | some future_spread =>
            decide ((current_spread > mean ∧ future_spread < current_spread)
                    ∨ (current_spread < mean ∧ future_spread > current_spread))
          | none => false)).length
        ((reversions : ℚ) / similar_extremes.length) * 100
    min (max prob 30) 95  -- Clamp between 30% and 95%

/-! ## Portfolio bookkeeping (`src/models/trade.py`) -/

/-- `Trade`: the fields that `Portfolio.add_trade` reads. -/
structure Trade where
  trade_id : String
  symbol : String
  entry_price : ℚ
  quantity : ℤ
  capital_at_risk : ℚ
deriving DecidableEq

/-- `Portfolio`: configuration and the mutable state touched by `add_trade`. -/
structure Portfolio where
  total_capital : ℚ
  max_position_size_percent : ℚ
  max_positions : ℕ
  max_sector_positions : ℕ
  open_trades : List Trade
  capital_at_risk : ℚ
deriving DecidableEq

/-- `Portfolio.add_trade`, with the mutation made explicit: returns the
boolean result together with the portfolio state after the call. -/
def Portfolio.add_trade (p : Portfolio) (trade : Trade) : Bool × Portfolio :=
  -- Check max positions
  if p.open_trades.length ≥ p.max_positions then (false, p)
  else
    -- Check position size
    let max_risk := p.total_capital * (p.max_position_size_percent / 100)
    if trade.capital_at_risk > max_risk then (false, p)
    else
      (true, { p with
        open_trades := p.open_trades ++ [trade],
        capital_at_risk := p.capital_at_risk + trade.capital_at_risk })

/-! ## Concrete sample data used by witnesses -/

/-- A concrete instantiation of the external numeric functions, agreeing with
the library values the theorems assume (`log 1 = 0`, `sqrt 1 = 1`,
`norm.pdf(inf) = 0`, `norm.cdf` finite on finite inputs). -/
def bsSample : BSFuns :=
  { log := fun x => if x = FV.fin 1 then FV.fin 0 else FV.nan,
    sqrt := fun x => if x = FV.fin 1 then FV.fin 1 else FV.nan,
    exp := fun _ => FV.fin 1,
    normCdf := fun x => if x = FV.inf then FV.fin 1 else FV.fin (1/2),
    normPdf := fun x => if x = FV.inf then FV.fin 0 else FV.fin (2/5) }

/-- Sample short-put leg: OTM, delta in the `[-0.20, -0.15]` window, mid 1.5. -/
def putShortSample : OptionContract :=
  { symbol := "JPM", strike := 95, bid := some (7/5), ask := some (8/5),
    delta := some (-(17/100)), gamma := none, theta := none, vega := none,
    rho := none, implied_volatility := none, iv_percentile := none,
    days_to_expiration := some 35 }

/-- Sample long-put leg: strike 5 below the short leg, mid 0.5. -/
def putLongSample : OptionContract :=
  { symbol := "JPM", strike := 90, bid := some (2/5), ask := some (3/5),
    delta := some (-(1/20)), gamma := none, theta := none, vega := none,
    rho := none, implied_volatility := none, iv_percentile := none,
    days_to_expiration := some 35 }

/-- A fundamentals snapshot whose oldest EPS reading is exactly `0.0`. -/
def epsZeroSample : StockFundamentals :=
  { symbol := "JPM", current_price := 100, market_cap := 20000000000,
    pe_ratio := some 10, roe := some 15, debt_to_equity := some 1,
    eps_current := some 2, eps_q1_ago := some 1, eps_q2_ago := some 0,
    sector := some "Financials", correlation_to_mag7 := some (-(2/5)) }

/-- A fundamentals snapshot with three nonzero, strictly decreasing-backwards
EPS readings. -/
def goodEpsSample : StockFundamentals :=
  { symbol := "JPM", current_price := 100, market_cap := 20000000000,
    pe_ratio := some 10, roe := some 15, debt_to_equity := some 1,
    eps_current := some 3, eps_q1_ago := some 2, eps_q2_ago := some 1,
    sector := some "Financials", correlation_to_mag7 := some (-(2/5)) }

/-- A portfolio with spare capacity (cap on a position: `10000 × 2.5% = 250`). -/
def portfolioSample : Portfolio :=
  { total_capital := 10000, max_position_size_percent := 5/2,
    max_positions := 15, max_sector_positions := 3,
    open_trades := [], capital_at_risk := 0 }

/-- A trade whose capital at risk (200) fits under the 250 cap. -/
def tradeSample : Trade :=
  { trade_id := "t1", symbol := "JPM", entry_price := 1, quantity := 1,
    capital_at_risk := 200 }

/-! ## Claims -/

/-- C1: `calculate_credit_spread_ev` with premium 0.25, max loss 4.75 and
probability of profit 82 yields expected value `0.82·0.25 − 0.18·4.75 =
−0.65`; `meets_ev_threshold` at threshold 0.20 rejects this case; and any
input whose `ev_percent` is at least 20 is accepted at threshold 0.20. -/
theorem credit_spread_ev_spec :
    (calculate_credit_spread_ev (1/4) (19/4) 82).expected_value = -(13/20) ∧
    (meets_ev_threshold (1/4) (19/4) 82 (1/5)).1 = false ∧
    ∀ premium max_loss pop : ℚ,
      (calculate_credit_spread_ev premium max_loss pop).ev_percent ≥ 20 →
      (meets_ev_threshold premium max_loss pop (1/5)).1 = true := by
  refine ⟨?_, ?_, ?_⟩
  · norm_num [calculate_credit_spread_ev]
  · norm_num [meets_ev_threshold, calculate_credit_spread_ev]
  · intro premium max_loss pop h
    simp only [meets_ev_threshold, decide_eq_true_eq]
    norm_num
    linarith

/-- Witness for C1: the input (premium 2, max loss 2, pop 82) has
`ev_percent = 64 ≥ 20` and is accepted at threshold 0.20. -/
theorem credit_spread_ev_spec_witness :
    (calculate_credit_spread_ev 2 2 82).ev_percent ≥ 20 ∧
    (meets_ev_threshold 2 2 82 (1/5)).1 = true :=
  ⟨by norm_num [calculate_credit_spread_ev],
   credit_spread_ev_spec.2.2 2 2 82 (by norm_num [calculate_credit_spread_ev])⟩

/-- C2 counterexample: at win probability 1/2 ∈ [0,1], win amount 0 and loss
amount 50 ≠ 0, `kelly_criterion` does not return a value in [0, 0.05]: the
win/loss ratio `b` is 0 and the unguarded `(b*p - q)/b` raises an uncaught
`ZeroDivisionError` (modelled as `none`), refuting the claim as stated. -/
theorem kelly_criterion_zero_win_counterexample :
    (0 ≤ (1/2 : ℚ) ∧ (1/2 : ℚ) ≤ 1) ∧ (50 : ℚ) ≠ 0 ∧
    kelly_criterion (1/2) 0 50 = none := by
  refine ⟨⟨by norm_num, by norm_num⟩, by norm_num, ?_⟩
  norm_num [kelly_criterion]

/-- C2 amended: for every win probability in [0,1] and every *nonzero* win
amount and nonzero loss amount, `kelly_criterion` returns a value in
[0, 0.05] (quarter-Kelly of `(b·p − q)/b`, capped at 0.05, floored at 0);
for p = 0.82, win 12.5, loss 50 the result is strictly positive and at most
0.05, and for p = 0.4 with the same amounts it is exactly 0. -/
theorem kelly_criterion_amended :
    (∀ p win loss : ℚ, 0 ≤ p → p ≤ 1 → loss ≠ 0 → win ≠ 0 →
      ∃ v, kelly_criterion p win loss = some v ∧ 0 ≤ v ∧ v ≤ 1/20) ∧
    (∃ v, kelly_criterion (41/50) (25/2) 50 = some v ∧ 0 < v ∧ v ≤ 1/20) ∧
    kelly_criterion (2/5) (25/2) 50 = some 0 := by
  have heq : ∀ p win loss : ℚ, loss ≠ 0 → win / loss ≠ 0 →
      kelly_criterion p win loss =
        some (max 0 (min ((win / loss * p - (1 - p)) / (win / loss) * (1/4)) (1/20))) := by
    intro p win loss hl hb
    unfold kelly_criterion
    rw [if_neg hl]
    simp only [if_neg hb]
  refine ⟨?_, ?_, ?_⟩
  · intro p win loss _ _ hl hw
    have hb : win / loss ≠ 0 := div_ne_zero hw hl
    exact ⟨_, heq p win loss hl hb,
      le_max_left _ _, max_le (by norm_num) (min_le_right _ _)⟩
  · refine ⟨1/40, ?_, by norm_num, by norm_num⟩
    rw [heq (41/50) (25/2) 50 (by norm_num) (by norm_num)]
    norm_num [min_def, max_def]
  · rw [heq (2/5) (25/2) 50 (by norm_num) (by norm_num)]
    norm_num [min_def, max_def]

/-- Witness for C2 amended: applied at p = 1/2, win 1, loss 2. -/
theorem kelly_criterion_amended_witness :
    ∃ v, kelly_criterion (1/2) 1 2 = some v ∧ 0 ≤ v ∧ v ≤ 1/20 :=
  kelly_criterion_amended.1 (1/2) 1 2 (by norm_num) (by norm_num)
    (by norm_num) (by norm_num)

/-- C5: after construction, a put (credit) spread has
`strike_width = short strike − long strike`, `max_loss = width − premium`,
`max_profit = premium`; a call (debit) spread has
`strike_width = short strike − long strike`, `max_profit = width − debit`,
`max_loss = debit` — whatever values were passed for the overwritten
fields. -/
theorem spread_construction_invariant :
    (∀ (symbol : String) (sp lp : OptionContract) (net : ℚ) (dte : ℤ)
       (sw0 mp0 ml0 be0 : ℚ) (d0 t0 v0 g0 p0 : Option ℚ),
      (mkPutSpread symbol sp lp net dte sw0 mp0 ml0 be0 d0 t0 v0 g0 p0).strike_width
        = sp.strike - lp.strike ∧
      (mkPutSpread symbol sp lp net dte sw0 mp0 ml0 be0 d0 t0 v0 g0 p0).max_loss
        = (mkPutSpread symbol sp lp net dte sw0 mp0 ml0 be0 d0 t0 v0 g0 p0).strike_width - net ∧
      (mkPutSpread symbol sp lp net dte sw0 mp0 ml0 be0 d0 t0 v0 g0 p0).max_profit = net) ∧
    (∀ (symbol : String) (lc sc : OptionContract) (debit : ℚ) (dte : ℤ)
       (sw0 mp0 ml0 be0 : ℚ) (d0 t0 v0 g0 p0 : Option ℚ),
      (mkCallSpread symbol lc sc debit dte sw0 mp0 ml0 be0 d0 t0 v0 g0 p0).strike_width
        = sc.strike - lc.strike ∧
      (mkCallSpread symbol lc sc debit dte sw0 mp0 ml0 be0 d0 t0 v0 g0 p0).max_profit
        = (mkCallSpread symbol lc sc debit dte sw0 mp0 ml0 be0 d0 t0 v0 g0 p0).strike_width - debit ∧
      (mkCallSpread symbol lc sc debit dte sw0 mp0 ml0 be0 d0 t0 v0 g0 p0).max_loss = debit) :=
  ⟨fun _ _ _ _ _ _ _ _ _ _ _ _ _ _ => ⟨rfl, rfl, rfl⟩,
   fun _ _ _ _ _ _ _ _ _ _ _ _ _ _ => ⟨rfl, rfl, rfl⟩⟩

/-- C9: `calculate_reversion_probability` always returns a value in
[30, 95]: the insufficient-history path returns 50, and both the z-score
heuristic and the empirical-analog path flow through the final clamp
`min(max(prob, 30), 95)`. -/
theorem reversion_probability_bounds (sqrtQ : ℚ → ℚ) (history : List ℚ)
    (current : ℚ) (lookback : ℕ) :
    (30 ≤ calculate_reversion_probability sqrtQ history current lookback ∧
     calculate_reversion_probability sqrtQ history current lookback ≤ 95) ∧
    (history.isEmpty ∨ history.length < lookback →
     calculate_reversion_probability sqrtQ history current lookback = 50) := by
  have hmm : ∀ x : ℚ, 30 ≤ min (max x 30) 95 ∧ min (max x 30) 95 ≤ 95 :=
    fun x => ⟨le_min (le_max_right _ _) (by norm_num), min_le_right _ _⟩
  constructor
  · unfold calculate_reversion_probability
    split
    · norm_num
    · exact hmm _
  · intro h
    unfold calculate_reversion_probability
    rw [if_pos h]

/-- Witness for C9: an empty history takes the insufficient-data path and
returns 50, which lies in [30, 95]. -/
theorem reversion_probability_bounds_witness :
    calculate_reversion_probability (fun q => q) [] 5 252 = 50 ∧
    30 ≤ calculate_reversion_probability (fun q => q) [] 5 252 ∧
    calculate_reversion_probability (fun q => q) [] 5 252 ≤ 95 :=
  ⟨(reversion_probability_bounds (fun q => q) [] 5 252).2 (Or.inl rfl),
   (reversion_probability_bounds (fun q => q) [] 5 252).1⟩

/-- C10: `Portfolio.add_trade` is atomic: when the portfolio is at its
position cap or the trade's capital at risk exceeds
`total_capital × max_position_size_percent / 100` it returns `False` with
the state unchanged; otherwise it returns `True`, appends exactly the trade
and adds exactly its capital at risk. -/
theorem add_trade_atomic (p : Portfolio) (t : Trade) :
    ((p.open_trades.length ≥ p.max_positions ∨
        t.capital_at_risk > p.total_capital * (p.max_position_size_percent / 100)) →
      p.add_trade t = (false, p)) ∧
    ((p.open_trades.length < p.max_positions ∧
        t.capital_at_risk ≤ p.total_capital * (p.max_position_size_percent / 100)) →
      (p.add_trade t).1 = true ∧
      (p.add_trade t).2.open_trades = p.open_trades ++ [t] ∧
      (p.add_trade t).2.capital_at_risk = p.capital_at_risk + t.capital_at_risk) := by
  constructor
  · rintro (hfull | hrisk)
    · simp [Portfolio.add_trade, if_pos hfull]
    · by_cases hfull : p.open_trades.length ≥ p.max_positions
      · simp [Portfolio.add_trade, if_pos hfull]
      · simp [Portfolio.add_trade, if_neg hfull, if_pos hrisk]
  · rintro ⟨hroom, hfit⟩
    have h1 : ¬(p.open_trades.length ≥ p.max_positions) := not_le.mpr hroom
    have h2 : ¬(t.capital_at_risk > p.total_capital * (p.max_position_size_percent / 100)) :=
      not_lt.mpr hfit
    simp [Portfolio.add_trade, if_neg h1, if_neg h2]

/-- Witness for C10: adding a 200-at-risk trade to an empty portfolio with a
250 cap succeeds, appends the trade and adds its capital at risk. -/
theorem add_trade_atomic_witness :
    (portfolioSample.add_trade tradeSample).1 = true ∧
    (portfolioSample.add_trade tradeSample).2.open_trades
      = portfolioSample.open_trades ++ [tradeSample] ∧
    (portfolioSample.add_trade tradeSample).2.capital_at_risk
      = portfolioSample.capital_at_risk + tradeSample.capital_at_risk :=
  (add_trade_atomic portfolioSample tradeSample).2
    ⟨by norm_num [portfolioSample],
     by norm_num [portfolioSample, tradeSample]⟩

/-- C3: when `time_to_expiration ≤ 0` (as evaluated on floats),
`calculate_all_greeks` returns the intrinsic-value limit — delta is 1 if
spot > strike else 0 for calls, −1 if spot < strike else 0 for puts, and
gamma, theta, vega, rho are exactly 0 — for every spot, strike, rate, IV and
option class.  The right-hand side does not mention the library functions
`F`, so the closed-form formula is not evaluated. -/
theorem greeks_expired_intrinsic (F : BSFuns) (spot strike T r iv : FV)
    (optionType : String) (hT : FV.le T (FV.fin 0) = true) :
    calculate_all_greeks F spot strike T r iv optionType =
      { delta := some (if pyLower optionType = "call"
            then (if FV.lt strike spot then FV.fin 1 else FV.fin 0)
            else (if FV.lt spot strike then FV.fin (-1) else FV.fin 0)),
        gamma := some (FV.fin 0), theta := some (FV.fin 0),
        vega := some (FV.fin 0), rho := some (FV.fin 0) } := by
  simp [calculate_all_greeks, hT]

/-- Witness for C3: an expired (T = 0) call with spot 100 above strike 90
gets delta 1 and zero for the other Greeks. -/
theorem greeks_expired_intrinsic_witness :
    calculate_all_greeks bsSample (FV.fin 100) (FV.fin 90) (FV.fin 0)
      (FV.fin (1/20)) (FV.fin (1/4)) "call" =
      { delta := some (FV.fin 1), gamma := some (FV.fin 0),
        theta := some (FV.fin 0), vega := some (FV.fin 0),
        rho := some (FV.fin 0) } := by
  rw [greeks_expired_intrinsic bsSample (FV.fin 100) (FV.fin 90) (FV.fin 0)
    (FV.fin (1/20)) (FV.fin (1/4)) "call" (by decide)]
  decide

/-- C4 (against the code as written): on the numerically degenerate input
spot 100, strike 100, T = 1 year, r = 0.05, IV = 0 (call), the float
arithmetic produces `d1 = 0.05 / 0.0 = inf` without raising, so the
`except` branch never fires and `calculate_all_greeks` returns
`gamma = 0.0 / 0.0 = nan` — not the all-`None` "Greeks unavailable" dict the
spec requires.  The hypotheses are the library values `np.log(1.0) = 0.0`,
`np.sqrt(1.0) = 1.0` and `scipy.stats.norm.pdf(inf) = 0.0`. -/
theorem greeks_degenerate_iv_nan (F : BSFuns)
    (hlog : F.log (FV.fin 1) = FV.fin 0)
    (hsqrt : F.sqrt (FV.fin 1) = FV.fin 1)
    (hpdf : F.normPdf FV.inf = FV.fin 0) :
    (calculate_all_greeks F (FV.fin 100) (FV.fin 100) (FV.fin 1)
        (FV.fin (1/20)) (FV.fin 0) "call").gamma = some FV.nan ∧
    calculate_all_greeks F (FV.fin 100) (FV.fin 100) (FV.fin 1)
        (FV.fin (1/20)) (FV.fin 0) "call" ≠ greeksUnavailable := by
  have hd1 : bs_d1 F (FV.fin 100) (FV.fin 100) (FV.fin 1) (FV.fin (1/20))
      (FV.fin 0) = FV.inf := by
    norm_num [bs_d1, hlog, hsqrt, FV.div, FV.add, FV.mul]
  have hg : (calculate_all_greeks F (FV.fin 100) (FV.fin 100) (FV.fin 1)
      (FV.fin (1/20)) (FV.fin 0) "call").gamma = some FV.nan := by
    simp only [calculate_all_greeks, hd1]
    norm_num [FV.le, hsqrt, hpdf, FV.div, FV.mul]
  refine ⟨hg, fun hcontra => ?_⟩
  rw [hcontra] at hg
  simp [greeksUnavailable] at hg

/-- Witness for C4's theorem: the hypotheses hold for the concrete
instantiation `bsSample` of the library functions. -/
theorem greeks_degenerate_iv_nan_witness :
    (calculate_all_greeks bsSample (FV.fin 100) (FV.fin 100) (FV.fin 1)
        (FV.fin (1/20)) (FV.fin 0) "call").gamma = some FV.nan ∧
    calculate_all_greeks bsSample (FV.fin 100) (FV.fin 100) (FV.fin 1)
        (FV.fin (1/20)) (FV.fin 0) "call" ≠ greeksUnavailable :=
  greeks_degenerate_iv_nan bsSample (by simp [bsSample]) (by simp [bsSample])
    (by simp [bsSample])

/-- C6: every spread returned by the scanner's builders has strictly
positive net premium (put credit spreads) or strictly positive net debit
(call debit spreads): candidates with non-positive mid-price difference are
discarded. -/
theorem build_spreads_positive_premium :
    (∀ (puts : List OptionContract) (price : ℚ) (symbol : String)
       (s : PutSpread), s ∈ _build_put_spreads puts price symbol →
       0 < s.net_premium_collected) ∧
    (∀ (calls : List OptionContract) (price : ℚ) (symbol : String)
       (c : CallSpread), c ∈ _build_call_spreads calls price symbol →
       0 < c.net_debit_paid) := by
  constructor
  · intro puts price symbol s hs
    simp only [_build_put_spreads, List.mem_flatMap, List.mem_filterMap] at hs
    obtain ⟨sp, -, lp, -, heq⟩ := hs
    split at heq
    · exact absurd heq (by simp)
    · next hpos =>
      cases heq
      simpa [mkPutSpread] using not_le.mp hpos
  · intro calls price symbol c hc
    simp only [_build_call_spreads, List.mem_flatMap, List.mem_filterMap] at hc
    obtain ⟨lc, -, sc, -, heq⟩ := hc
    split at heq
    · exact absurd heq (by simp)
    · next hpos =>
      cases heq
      simpa [mkCallSpread] using not_le.mp hpos

/-- Witness for C6: a two-contract chain (short put mid 1.5, long put mid
0.5, width 5) yields exactly the spread with net premium 1 > 0. -/
theorem build_spreads_positive_premium_witness :
    0 < (mkPutSpread "JPM" putShortSample putLongSample 1 35).net_premium_collected :=
  build_spreads_positive_premium.1 [putShortSample, putLongSample] 100 "JPM"
    (mkPutSpread "JPM" putShortSample putLongSample 1 35)
    (by norm_num [_build_put_spreads, putShortSample, putLongSample, mkPutSpread])

/-- C7 counterexample: at the matched input spot 100, **strike 0**, T = 1,
r = 0.05, IV = 0.25, the builtin-float division `spot_price / strike_price`
raises `ZeroDivisionError`, the `except` branch returns the all-`None`
dict, and both deltas are `None` — so the claim's "call delta minus put
delta equals exactly 1" fails at this input: there are no numeric deltas at
all. -/
theorem put_call_delta_identity_counterexample :
    FV.le (FV.fin 1) (FV.fin 0) = false ∧
    (calculate_all_greeks bsSample (FV.fin 100) (FV.fin 0) (FV.fin 1)
      (FV.fin (1/20)) (FV.fin (1/4)) "call").delta = none ∧
    (calculate_all_greeks bsSample (FV.fin 100) (FV.fin 0) (FV.fin 1)
      (FV.fin (1/20)) (FV.fin (1/4)) "put").delta = none ∧
    ¬∃ dc dp,
      (calculate_all_greeks bsSample (FV.fin 100) (FV.fin 0) (FV.fin 1)
        (FV.fin (1/20)) (FV.fin (1/4)) "call").delta = some dc ∧
      (calculate_all_greeks bsSample (FV.fin 100) (FV.fin 0) (FV.fin 1)
        (FV.fin (1/20)) (FV.fin (1/4)) "put").delta = some dp ∧
      FV.sub dc dp = FV.fin 1 := by
  have hnc : (calculate_all_greeks bsSample (FV.fin 100) (FV.fin 0) (FV.fin 1)
      (FV.fin (1/20)) (FV.fin (1/4)) "call").delta = none := by decide
  have hnp : (calculate_all_greeks bsSample (FV.fin 100) (FV.fin 0) (FV.fin 1)
      (FV.fin (1/20)) (FV.fin (1/4)) "put").delta = none := by decide
  refine ⟨by decide, hnc, hnp, ?_⟩
  rintro ⟨dc, dp, h1, -, -⟩
  rw [hnc] at h1
  exact Option.noConfusion h1

/-- C7 amended: for matched spot, **nonzero** strike, T > 0 (as evaluated on
floats), rate and IV, whenever the library cdf returns a finite value at
`d1`, the call delta minus the put delta returned by `calculate_all_greeks`
is exactly 1, since the call delta is `N(d1)` and the put delta is
`N(d1) − 1`; at strike = 0 the division raises and both deltas are the
`None` unavailable value instead. -/
theorem put_call_delta_identity (F : BSFuns) (spot strike T r iv : FV)
    (c : ℚ) (hT : FV.le T (FV.fin 0) = false) (hstrike : strike ≠ FV.fin 0)
    (hcdf : F.normCdf (bs_d1 F spot strike T r iv) = FV.fin c) :
    ∃ dc dp,
      (calculate_all_greeks F spot strike T r iv "call").delta = some dc ∧
      (calculate_all_greeks F spot strike T r iv "put").delta = some dp ∧
      FV.sub dc dp = FV.fin 1 := by
  have hcall : pyLower "call" = "call" := by decide
  have hput : pyLower "put" ≠ "call" := by decide
  refine ⟨FV.fin c, FV.fin (c - 1), ?_, ?_, ?_⟩
  · simp [calculate_all_greeks, hT, hstrike, hcall, hcdf]
  · have h1 : c + -1 = c - 1 := by ring
    simp [calculate_all_greeks, hT, hstrike, hput, hcdf, FV.sub, FV.add,
      FV.neg, h1]
  · have h2 : c + -(c - 1) = 1 := by ring
    simp [FV.sub, FV.add, FV.neg, h2]

/-- Witness for C7 amended: at spot = strike = 100, T = 1, r = 0.05, IV = 1
with the concrete library stand-in `bsSample`, where `N(d1) = 1/2`. -/
theorem put_call_delta_identity_witness :
    ∃ dc dp,
      (calculate_all_greeks bsSample (FV.fin 100) (FV.fin 100) (FV.fin 1)
        (FV.fin (1/20)) (FV.fin 1) "call").delta = some dc ∧
      (calculate_all_greeks bsSample (FV.fin 100) (FV.fin 100) (FV.fin 1)
        (FV.fin (1/20)) (FV.fin 1) "put").delta = some dp ∧
      FV.sub dc dp = FV.fin 1 :=
  put_call_delta_identity bsSample (FV.fin 100) (FV.fin 100) (FV.fin 1)
    (FV.fin (1/20)) (FV.fin 1) (1/2) (by decide) (by decide)
    (by
      norm_num [bsSample, bs_d1, FV.div, FV.add, FV.mul]
      decide)

/-- C8 counterexample: a snapshot whose EPS readings 2, 1, 0 are all present
and strictly decreasing going back in time, yet
`eps_growth_positive_2q` returns `False`, because Python truthiness treats
the reading `0.0` as missing — refuting the claimed "if and only if". -/
theorem eps_growth_zero_reading_counterexample :
    epsZeroSample.eps_current = some 2 ∧
    epsZeroSample.eps_q1_ago = some 1 ∧
    epsZeroSample.eps_q2_ago = some 0 ∧
    ((2 : ℚ) > 1 ∧ (1 : ℚ) > 0) ∧
    eps_growth_positive_2q epsZeroSample = false := by
  refine ⟨rfl, rfl, rfl, ⟨by norm_num, by norm_num⟩, ?_⟩
  norm_num [eps_growth_positive_2q, epsZeroSample, truthy]

/-- C8 amended: the rule is `True` iff all three EPS readings are present
*and nonzero* (Python truthiness treats `0.0` like a missing reading) and
`eps_current > eps_q1_ago > eps_q2_ago`; otherwise it is `False`, and the
Layer-1 result then records the corresponding violation. -/
theorem eps_growth_amended (s : StockFundamentals) :
    (eps_growth_positive_2q s = true ↔
      ∃ a b c : ℚ, s.eps_current = some a ∧ s.eps_q1_ago = some b ∧
        s.eps_q2_ago = some c ∧ a ≠ 0 ∧ b ≠ 0 ∧ c ≠ 0 ∧ a > b ∧ b > c) ∧
    (eps_growth_positive_2q s = false →
      Layer1Failure.epsGrowthNotPositive ∈ (passes_layer1_criteria s).2) := by
  constructor
  · constructor
    · intro h
      rcases hc : s.eps_current with - | a <;>
        rcases h1 : s.eps_q1_ago with - | b <;>
          rcases h2 : s.eps_q2_ago with - | c <;>
            rw [eps_growth_positive_2q, hc, h1, h2] at h <;>
              simp only [truthy, Bool.and_eq_true, decide_eq_true_eq,
                Option.getD_some, Bool.false_and, Bool.and_false,
                Bool.false_eq_true, and_false, false_and] at h
      obtain ⟨⟨⟨ha, hb⟩, hcz⟩, hab, hbc⟩ := h
      exact ⟨a, b, c, rfl, rfl, rfl, ha, hb, hcz, hab, hbc⟩
    · rintro ⟨a, b, c, ha, hb, hcz, h3, h4, h5, h6, h7⟩
      rw [eps_growth_positive_2q, ha, hb, hcz]
      simp [truthy, h3, h4, h5, h6, h7]
  · intro h
    simp [passes_layer1_criteria, h]

/-- Witness for C8 amended: three present, nonzero, strictly
decreasing-backwards readings (3 > 2 > 1) make the rule evaluate to true. -/
theorem eps_growth_amended_witness :
    eps_growth_positive_2q goodEpsSample = true :=
  (eps_growth_amended goodEpsSample).1.mpr
    ⟨3, 2, 1, rfl, rfl, rfl, by norm_num, by norm_num, by norm_num,
      by norm_num, by norm_num⟩

end ReversionHunter
